import Mathlib

/-!
Verification development for the MindMate application: a shallow Lean 4
embedding of the pure classification, polarity-scoring, reply-selection and
mood-aggregation logic found in `journal.py`, `chatbot.py`, `mood_plot.py`
and `app.py`, together with theorems settling the specification claims.

External effectful collaborators are abstracted as explicit parameters:
the TextBlob sentiment primitive becomes a rational `blobPolarity` argument
(the code only thresholds its value), and the optional generative text
service becomes an `LLMOutcome` value describing the call's result.
Machine floats are modelled as exact rationals (the arithmetic involved is
small-integer division and fixed threshold comparisons), and Python's
Unicode-aware string primitives are modelled at their ASCII restriction,
which covers every string constant appearing in the program.
-/

namespace MindMate

/-- ASCII model of Python `str.lower` on a single character. -/
def lowerChar (c : Char) : Char :=
  if 65 ≤ c.toNat ∧ c.toNat ≤ 90 then Char.ofNat (c.toNat + 32) else c

/-- Model of Python `str.lower`. -/
def pyLower (s : String) : String := ⟨s.toList.map lowerChar⟩

/-- ASCII whitespace recognised by Python `str.strip`. -/
def isPySpace (c : Char) : Bool :=
  c == ' ' || c == '\t' || c == '\n' || c == '\r' || c == '\x0b' || c == '\x0c'

/-- Model of Python `str.strip`. -/
def pyStrip (s : String) : String :=
  ⟨((s.toList.dropWhile isPySpace).reverse.dropWhile isPySpace).reverse⟩

/-- Model of the regex word-character class `\w` (ASCII restriction). -/
def isWordChar (c : Char) : Bool := c.isAlpha || c.isDigit || c == '_'

/-- `prefixAt p t`: the character list `p` is a prefix of `t`. -/
def prefixAt : List Char → List Char → Bool
  | [], _ => true
  | _ :: _, [] => false
  | a :: as, b :: bs => a == b && prefixAt as bs

/-- `occursIn p t`: `p` occurs as a contiguous sublist of `t`
(model of Python's `in` operator on strings). -/
def occursIn (p : List Char) : List Char → Bool
  | [] => p.isEmpty
  | c :: cs => prefixAt p (c :: cs) || occursIn p cs

/-- Model of Python `p in text` substring containment. -/
def isSubstr (p t : String) : Bool := occursIn p.toList t.toList

/-- `prefixBoundary p t`: `p` is a prefix of `t` and the occurrence ends at a
word boundary (the next character of `t`, if any, is not a word character).
Models a regex literal followed by `\b`, anchored at the current position. -/
def prefixBoundary : List Char → List Char → Bool
  | [], [] => true
  | [], c :: _ => !isWordChar c
  | _ :: _, [] => false
  | a :: as, b :: bs => a == b && prefixBoundary as bs

/-- The character preceding a match position admits a `\b` word boundary
before a word character: either there is no preceding character or it is
not a word character. -/
def startOk : Option Char → Bool
  | none => true
  | some c => !isWordChar c

/-- Scan of `re.search` for the literal pattern `p` bracketed by `\b` on both
sides: some position of the text starts a boundary-delimited occurrence.
`prev` is the character just before the current position. -/
def boundaryOccursAux (p : List Char) : Option Char → List Char → Bool
  | prev, [] => startOk prev && prefixBoundary p []
  | prev, c :: cs => (startOk prev && prefixBoundary p (c :: cs)) ||
      boundaryOccursAux p (some c) cs

/-- `re.search(r"\b<p>\b", t)` succeeds, for a literal (escaped) pattern `p`
beginning and ending with word characters. -/
def boundaryOccurs (p t : String) : Bool := boundaryOccursAux p.toList none t.toList

/-- Maximal runs of word characters, the matches of `re.findall(r"\b\w+\b", ·)`.
`acc` holds the (reversed) current run. -/
def tokenizeAux : List Char → List Char → List (List Char)
  | acc, [] => if acc.isEmpty then [] else [acc.reverse]
  | acc, c :: cs =>
    if isWordChar c then tokenizeAux (c :: acc) cs
    else if acc.isEmpty then tokenizeAux [] cs
    else acc.reverse :: tokenizeAux [] cs

/-- `re.findall(r"\b\w+\b", entry_text.lower())` from `journal.py`. -/
def pyTokens (s : String) : List String :=
  (tokenizeAux [] (pyLower s).toList).map fun cs => ⟨cs⟩

/-! ### journal.py -/

/-- `POSITIVE_WORDS` from `journal.py`. -/
def POSITIVE_WORDS : List String :=
  ["happy", "joy", "joyful", "good", "great", "love", "excited", "wonderful",
   "delighted", "content", "fortunate", "grateful", "calm"]

/-- `NEGATIVE_WORDS` from `journal.py`. -/
def NEGATIVE_WORDS : List String :=
  ["sad", "depressed", "down", "angry", "frustrated", "unhappy", "anxious",
   "nervous", "worried", "bad", "upset", "fear", "lonely", "hopeless"]

/-- The polarity computed by `analyze_emotion` in `journal.py`:
`(pos_count - neg_count) / total` when `total > 0`, else `0.0`. -/
def analyze_polarity (entry_text : String) : ℚ :=
  let tokens := pyTokens entry_text
  let pos_count := tokens.countP fun t => POSITIVE_WORDS.contains t
  let neg_count := tokens.countP fun t => NEGATIVE_WORDS.contains t
  let total := pos_count + neg_count
  if total = 0 then 0 else ((pos_count : ℚ) - (neg_count : ℚ)) / (total : ℚ)

/-- The mood categorisation step of `analyze_emotion` in `journal.py`
(thresholds `> 0.1` / `< -0.1`). -/
def moodOf (polarity : ℚ) : String :=
  if polarity > 1/10 then "positive"
  else if polarity < -(1/10) then "negative"
  else "neutral"

/-- `analyze_emotion` from `journal.py`: returns `(mood, polarity)`. -/
def analyze_emotion (entry_text : String) : String × ℚ :=
  (moodOf (analyze_polarity entry_text), analyze_polarity entry_text)

/-! ### chatbot.py -/

/-- `POS_THRESHOLD` from `chatbot.py`. -/
def POS_THRESHOLD : ℚ := 3/10

/-- `NEG_THRESHOLD` from `chatbot.py`. -/
def NEG_THRESHOLD : ℚ := -(3/10)

/-- `get_emotion` from `chatbot.py`, with the TextBlob polarity of the text
abstracted as the rational argument (the code only thresholds it). -/
def get_emotion (blobPolarity : ℚ) : String :=
  if blobPolarity > POS_THRESHOLD then "positive"
  else if blobPolarity < NEG_THRESHOLD then "negative"
  else "neutral"

/-- `_contains_any` from `chatbot.py`. -/
def containsAny (text : String) (phrases : List String) : Bool :=
  phrases.any fun p => isSubstr p text

/-- The leading question words of `_question_like`'s anchored regex. -/
def questionWords : List String :=
  ["what", "why", "how", "when", "where", "who", "can", "should", "could",
   "would", "is", "are", "do", "does"]

/-- `_question_like` from `chatbot.py`: contains `?`, or starts with a question
word followed by a word boundary (`re.match` anchors at the start). -/
def questionLike (text : String) : Bool :=
  isSubstr "?" text ||
    questionWords.any fun w => prefixBoundary w.toList text.toList

/-- `positive_terms` from `detect_intent_and_emotion`. -/
def positive_terms : List String :=
  ["happy", "good", "great", "excited", "okay", "ok", "fine", "positive",
   "calm", "content"]

/-- `negative_terms` from `detect_intent_and_emotion`. -/
def negative_terms : List String :=
  ["sad", "down", "depressed", "anxious", "angry", "stressed", "worried", "upset"]

/-- The finite expansion of the five negation regexes of `_has_negated` for a
term `t`: `\bnot (?:so |that )?t\b`, `\bnot feeling (?:so |that )?t\b`,
`\bdon't feel (?:so |that )?t\b`, `\bdo not feel (?:so |that )?t\b`,
`\bno longer (?:feel(?:ing)? )?t\b`. -/
def negationVariants (t : String) : List String :=
  ["not " ++ t, "not so " ++ t, "not that " ++ t,
   "not feeling " ++ t, "not feeling so " ++ t, "not feeling that " ++ t,
   "don't feel " ++ t, "don't feel so " ++ t, "don't feel that " ++ t,
   "do not feel " ++ t, "do not feel so " ++ t, "do not feel that " ++ t,
   "no longer " ++ t, "no longer feel " ++ t, "no longer feeling " ++ t]

/-- `_has_negated` from `detect_intent_and_emotion`: some term of `terms` has a
negated occurrence in `text`. -/
def hasNegated (terms : List String) (text : String) : Bool :=
  terms.any fun t => (negationVariants t).any fun v => boundaryOccurs v text

/-- The dict returned by `detect_intent_and_emotion`. -/
structure Ctx where
  emotion : String
  intent : String
deriving DecidableEq, Repr

/-- Intent phrase list of the `achievement` branch. -/
def achievementPhrases : List String :=
  ["i made", "i built", "i created", "i achieved", "i accomplished",
   "promotion", "got hired", "won", "passed", "nailed it",
   "big achievement", "proud of", "shipped"]

/-- Intent phrase list of the `gratitude` branch. -/
def gratitudePhrases : List String :=
  ["thank you", "thanks", "appreciate it", "grateful"]

/-- Intent phrase list of the `apology` branch. -/
def apologyPhrases : List String :=
  ["sorry", "apologies", "my fault", "apologize"]

/-- Intent phrase list of the `anger` branch. -/
def angerPhrases : List String :=
  ["angry", "mad", "furious", "pissed", "rage"]

/-- Intent phrase list of the `tiredness` branch. -/
def tirednessPhrases : List String :=
  ["tired", "exhausted", "drained", "fatigued", "sleepy", "burnt out", "burned out"]

/-- Intent phrase list of the `overwhelm` branch. -/
def overwhelmPhrases : List String :=
  ["overwhelmed", "too much", "can’t handle", "cant handle", "overloaded"]

/-- Intent phrase list of the `confusion` branch. -/
def confusionPhrases : List String :=
  ["confused", "don’t know", "dont know", "unsure", "uncertain"]

/-- Intent phrase list of the `loneliness` branch. -/
def lonelinessPhrases : List String :=
  ["lonely", "alone", "isolated"]

/-- Intent phrase list of the `anxiety` branch. -/
def anxietyPhrases : List String :=
  ["anxious", "anxiety", "worried", "stress", "stressed"]

/-- Remaining phrase list of the `journal` branch (tested after the bare
substring `journal`). -/
def journalRestPhrases : List String :=
  ["write", "diary", "journaling", "notes"]

/-- Intent phrase list of the `breathing` branch. -/
def breathingPhrases : List String :=
  ["breathe", "breathing", "grounding", "relax", "calm down"]

/-- Intent phrase list of the `capability` branch. -/
def capabilityPhrases : List String :=
  ["who are you", "what are you", "what can you do", "help me",
   "how can you help", "what can i do"]

/-- Intent phrase list of the `greet` branch. -/
def greetPhrases : List String :=
  ["hello", "hi", "hey", "good morning", "good evening", "good afternoon"]

/-- The intent `elif` chain of `detect_intent_and_emotion`, applied to the
lowercased-and-stripped text. -/
def detectIntent (text : String) : String :=
  if containsAny text achievementPhrases then "achievement"
  else if containsAny text gratitudePhrases then "gratitude"
  else if containsAny text apologyPhrases then "apology"
  else if containsAny text angerPhrases then "anger"
  else if containsAny text tirednessPhrases then "tiredness"
  else if containsAny text overwhelmPhrases then "overwhelm"
  else if containsAny text confusionPhrases then "confusion"
  else if containsAny text lonelinessPhrases then "loneliness"
  else if containsAny text anxietyPhrases then "anxiety"
  else if isSubstr "journal" text || containsAny text journalRestPhrases then "journal"
  else if containsAny text breathingPhrases then "breathing"
  else if containsAny text capabilityPhrases then "capability"
  else if containsAny text greetPhrases then "greet"
  else "none"

/-- `detect_intent_and_emotion` from `chatbot.py`. `blobPolarity` abstracts
the TextBlob sentiment polarity of the processed text. -/
def detect_intent_and_emotion (blobPolarity : ℚ) (user_input : String) : Ctx :=
  let text := pyStrip (pyLower user_input)
  let base := get_emotion blobPolarity
  let emotion :=
    if hasNegated positive_terms text then "negative"
    else if hasNegated negative_terms text then "neutral"
    else base
  { emotion := emotion, intent := detectIntent text }

/-- `get_response` from `chatbot.py`, rule-based reply selection. -/
def get_response (blobPolarity : ℚ) (user_input : String) : String :=
  if pyStrip user_input = "" then "I'm here to listen. How are you feeling today?"
  else
    let text := pyLower user_input
    let ctx := detect_intent_and_emotion blobPolarity text
    let emotion := ctx.emotion
    if ctx.intent = "achievement" then
      "That’s amazing — congratulations! What part of this achievement makes you most proud?"
    else if ctx.intent = "gratitude" then
      "You’re very welcome. I’m glad to be here for you."
    else if ctx.intent = "apology" then
      "It’s okay to make mistakes. What would help you be kinder to yourself right now?"
    else if ctx.intent = "anger" then
      "Anger can feel intense. Would a short grounding exercise help you release some of that tension?"
    else if ctx.intent = "tiredness" then
      "You sound worn out. A quick rest, water, or a short walk might help. Want to plan a tiny break?"
    else if ctx.intent = "overwhelm" then
      "Feeling overwhelmed is tough. Let’s break things into one small next step—what’s the first doable action?"
    else if ctx.intent = "confusion" then
      "It’s okay to not have all the answers. What options are you considering right now?"
    else if ctx.intent = "loneliness" then
      "You’re not alone. I’m here with you. Would reaching out to someone or journaling help right now?"
    else if ctx.intent = "anxiety" then
      "Deep breathing can help. Want me to guide you through a short exercise?"
    else if containsAny text ["sad", "down", "depressed", "blue"] || emotion = "negative" then
      "I'm here for you. Would you like to try a breathing exercise or write a journal entry?"
    else if containsAny text ["happy", "joy", "excited", "great", "good", "awesome", "fantastic", "grateful"] || emotion = "positive" then
      "That's wonderful! Want to share what made your day so good?"
    else if ctx.intent = "journal" then
      "Sure! Head to the Journal tab and write down your thoughts."
    else if ctx.intent = "breathing" then
      "Try this: inhale for 4, hold for 4, exhale for 6 — repeat 4 times. How do you feel after that?"
    else if ctx.intent = "capability" then
      "I’m MindMate—here to listen, reflect, and offer gentle suggestions like journaling or simple breathing exercises. What would help most right now?"
    else if ctx.intent = "greet" then
      "Hello! How are you feeling right now?"
    else if emotion = "positive" then
      "I love your positive energy. Would you like to capture this in your journal?"
    else if emotion = "negative" then
      "That sounds tough. I'm here for you. Want to talk more or write about it?"
    else if questionLike text then
      "That’s a thoughtful question. What outcome would feel right for you? Sometimes writing your thoughts helps clarify."
    else "I'm listening. Tell me a bit more about what’s on your mind."

/-- Result of one call to the external generative service, as observed by the
`try`/`except` body of `get_llm_response`: either some raised exception
(timeout, non-2xx status, connection error, malformed payload access), or a
normal return carrying the extracted content field (`none` when the payload
had no truthy content). -/
inductive LLMOutcome where
  | failure : LLMOutcome
  | success : Option String → LLMOutcome
deriving DecidableEq

/-- `get_llm_response` from `chatbot.py`: `none` when the LLM path is not
configured, the call raises, or the payload carries no truthy content;
otherwise the stripped content. -/
def get_llm_response (available : Bool) (outcome : LLMOutcome) : Option String :=
  if available = false then none
  else
    match outcome with
    | LLMOutcome.failure => none
    | LLMOutcome.success none => none
    | LLMOutcome.success (some c) => if c = "" then none else some (pyStrip c)

/-- `generate_reply` from `chatbot.py`: prefer the LLM reply if truthy, else
the rule-based reply. -/
def generate_reply (available : Bool) (outcome : LLMOutcome) (blobPolarity : ℚ)
    (user_input : String) : String :=
  match get_llm_response available outcome with
  | some llm => if llm = "" then get_response blobPolarity user_input else llm
  | none => get_response blobPolarity user_input

/-! ### mood_plot.py -/

/-- The label-to-number mapping of `plot_mood_trend` in `mood_plot.py`. -/
def moodValue (mood : String) : Int :=
  if pyLower mood = "positive" then 1
  else if pyLower mood = "negative" then -1
  else 0

/-- The pure aggregation core of `plot_mood_trend`: given the `(date, mood)`
rows read from the database in order, either `none` (no rows, no chart
artifact) or the parallel date and numeric-value series handed to the
chart renderer. -/
def plot_mood_trend (rows : List (String × String)) : Option (List String × List Int) :=
  if rows.isEmpty then none
  else some (rows.map Prod.fst, rows.map fun r => moodValue r.snd)

/-! ### app.py (chat turn persistence) -/

/-- The classification context the chat page stores with a turn: the result of
`detect_intent_and_emotion`, overridden to neutral/none when the prompt
contains `not angry` (`app.py`). -/
def chat_turn_ctx (blobPolarity : ℚ) (prompt : String) : Ctx :=
  let ctx := detect_intent_and_emotion blobPolarity prompt
  if isSubstr "not angry" (pyLower prompt) then { emotion := "neutral", intent := "none" }
  else ctx

/-- The polarity value the chat page writes to `mood_signals` for an emotion
label (`app.py`): `1.0`, `-1.0` or `0.0`. -/
def chat_polarity (emotion : String) : ℚ :=
  if emotion = "positive" then 1 else if emotion = "negative" then -1 else 0

/-! ### Specification-side definitions -/

/-- Modelled from the spec (§4.1 step 4): the ordered first-match-wins rule
list for intent classification. -/
def intentRules : List (List String × String) :=
  [(achievementPhrases, "achievement"),
   (gratitudePhrases, "gratitude"),
   (apologyPhrases, "apology"),
   (angerPhrases, "anger"),
   (tirednessPhrases, "tiredness"),
   (overwhelmPhrases, "overwhelm"),
   (confusionPhrases, "confusion"),
   (lonelinessPhrases, "loneliness"),
   (anxietyPhrases, "anxiety"),
   (["journal", "write", "diary", "journaling", "notes"], "journal"),
   (breathingPhrases, "breathing"),
   (capabilityPhrases, "capability"),
   (greetPhrases, "greet")]

/-- Modelled from the spec: evaluate an ordered (phrases, label) rule list,
first match wins, defaulting to `"none"`. -/
def firstMatch (text : String) : List (List String × String) → String
  | [] => "none"
  | (ps, label) :: rest => if containsAny text ps then label else firstMatch text rest

/-! ### Helper lemmas -/

theorem lowerChar_idem (c : Char) : lowerChar (lowerChar c) = lowerChar c := by
  unfold lowerChar
  by_cases h : 65 ≤ c.toNat ∧ c.toNat ≤ 90
  · rw [if_pos h]
    obtain ⟨h1, h2⟩ := h
    generalize c.toNat = n at h1 h2
    interval_cases n <;> decide
  · rw [if_neg h, if_neg h]

theorem pyLower_idem (s : String) : pyLower (pyLower s) = pyLower s := by
  unfold pyLower
  simp only [String.toList, List.map_map]
  exact congrArg String.mk (List.map_congr_left fun a _ => lowerChar_idem a)

theorem moodOf_eq_positive_iff (q : ℚ) : moodOf q = "positive" ↔ 1/10 < q := by
  unfold moodOf
  split_ifs with h1 h2
  · exact iff_of_true rfl h1
  · exact iff_of_false (by simp) h1
  · exact iff_of_false (by simp) h1

theorem moodOf_eq_negative_iff (q : ℚ) : moodOf q = "negative" ↔ q < -(1/10) := by
  unfold moodOf
  split_ifs with h1 h2
  · exact iff_of_false (by simp) (by intro hc; linarith)
  · exact iff_of_true rfl h2
  · exact iff_of_false (by simp) h2

theorem moodOf_eq_neutral_iff (q : ℚ) :
    moodOf q = "neutral" ↔ -(1/10) ≤ q ∧ q ≤ 1/10 := by
  unfold moodOf
  split_ifs with h1 h2
  · exact iff_of_false (by simp) (fun hc => by linarith [hc.2])
  · exact iff_of_false (by simp) (fun hc => by linarith [hc.1])
  · exact iff_of_true rfl ⟨by linarith [not_lt.mp h2], by linarith [not_lt.mp h1]⟩

theorem get_emotion_mem (p : ℚ) :
    get_emotion p = "positive" ∨ get_emotion p = "negative" ∨ get_emotion p = "neutral" := by
  unfold get_emotion
  split_ifs <;> simp

theorem detect_emotion_eq (p : ℚ) (input : String) :
    (detect_intent_and_emotion p input).emotion =
      if hasNegated positive_terms (pyStrip (pyLower input)) then "negative"
      else if hasNegated negative_terms (pyStrip (pyLower input)) then "neutral"
      else get_emotion p := rfl

theorem detect_intent_eq (p : ℚ) (input : String) :
    (detect_intent_and_emotion p input).intent = detectIntent (pyStrip (pyLower input)) := rfl

theorem detect_emotion_mem (p : ℚ) (input : String) :
    (detect_intent_and_emotion p input).emotion = "positive" ∨
    (detect_intent_and_emotion p input).emotion = "negative" ∨
    (detect_intent_and_emotion p input).emotion = "neutral" := by
  rw [detect_emotion_eq]
  split_ifs
  · simp
  · simp
  · exact get_emotion_mem p

theorem chat_emotion_mem (p : ℚ) (prompt : String) :
    (chat_turn_ctx p prompt).emotion = "positive" ∨
    (chat_turn_ctx p prompt).emotion = "negative" ∨
    (chat_turn_ctx p prompt).emotion = "neutral" := by
  unfold chat_turn_ctx
  split_ifs
  · simp
  · exact detect_emotion_mem p prompt

theorem pos_word_not_neg_word (t : String) :
    POSITIVE_WORDS.contains t = true → NEGATIVE_WORDS.contains t = false := by
  intro h
  simp only [POSITIVE_WORDS, List.contains_cons, List.contains_nil, Bool.or_eq_true,
    beq_iff_eq] at h
  rcases h with h | h | h | h | h | h | h | h | h | h | h | h | h | h <;>
    first
      | (subst h; decide)
      | exact absurd h (by simp)

theorem ite_mem_str {c : Prop} [Decidable c] {a b : String} {l : List String}
    (ha : a ∈ l) (hb : b ∈ l) : (if c then a else b) ∈ l := by
  by_cases h : c
  · rwa [if_pos h]
  · rwa [if_neg h]

theorem ite_ne_empty {c : Prop} [Decidable c] {a b : String}
    (ha : a ≠ "") (hb : b ≠ "") : (if c then a else b) ≠ "" := by
  by_cases h : c
  · rwa [if_pos h]
  · rwa [if_neg h]

theorem detect_intent_mem (text : String) :
    detectIntent text ∈
      ["achievement", "gratitude", "apology", "anger", "tiredness", "overwhelm",
       "confusion", "loneliness", "anxiety", "journal", "breathing", "capability",
       "greet", "none"] := by
  unfold detectIntent
  repeat' refine ite_mem_str (by decide) ?_
  decide

theorem get_response_ne_empty (p : ℚ) (input : String) : get_response p input ≠ "" := by
  unfold get_response
  dsimp only
  repeat' refine ite_ne_empty (by decide) ?_
  decide

theorem get_emotion_eq_positive_iff (p : ℚ) :
    get_emotion p = "positive" ↔ 3/10 < p := by
  unfold get_emotion POS_THRESHOLD NEG_THRESHOLD
  split_ifs with h1 h2
  · exact iff_of_true rfl h1
  · exact iff_of_false (by simp) h1
  · exact iff_of_false (by simp) h1

theorem get_emotion_eq_negative_iff (p : ℚ) :
    get_emotion p = "negative" ↔ p < -(3/10) := by
  unfold get_emotion POS_THRESHOLD NEG_THRESHOLD
  split_ifs with h1 h2
  · exact iff_of_false (by simp) (by intro hc; linarith)
  · exact iff_of_true rfl h2
  · exact iff_of_false (by simp) h2

theorem get_emotion_eq_neutral_iff (p : ℚ) :
    get_emotion p = "neutral" ↔ -(3/10) ≤ p ∧ p ≤ 3/10 := by
  unfold get_emotion POS_THRESHOLD NEG_THRESHOLD
  split_ifs with h1 h2
  · exact iff_of_false (by simp) (fun hc => by linarith [hc.2])
  · exact iff_of_false (by simp) (fun hc => by linarith [hc.1])
  · exact iff_of_true rfl ⟨by linarith [not_lt.mp h2], by linarith [not_lt.mp h1]⟩

/-! ### Claim theorems -/

/-- C2 (confirmed): `analyze_emotion` tokenizes the lowercased text on word
boundaries, counts tokens in the fixed positive and negative word sets,
returns polarity `(pos - neg) / (pos + neg)` when `pos + neg > 0` and `0.0`
otherwise, and labels the mood `positive` when polarity `> 0.1`, `negative`
when `< -0.1`, `neutral` otherwise. It is a pure function: the result is
fully determined by this expression in the input string. -/
theorem C2_polarity_scorer_functional_spec (s : String) :
    analyze_polarity s =
      (if (pyTokens s).countP (fun t => POSITIVE_WORDS.contains t) +
          (pyTokens s).countP (fun t => NEGATIVE_WORDS.contains t) = 0 then 0
       else (((pyTokens s).countP (fun t => POSITIVE_WORDS.contains t) : ℚ) -
              ((pyTokens s).countP (fun t => NEGATIVE_WORDS.contains t) : ℚ)) /
            (((pyTokens s).countP (fun t => POSITIVE_WORDS.contains t) +
              (pyTokens s).countP (fun t => NEGATIVE_WORDS.contains t) : ℕ) : ℚ)) ∧
    analyze_emotion s =
      (if analyze_polarity s > 1/10 then "positive"
       else if analyze_polarity s < -(1/10) then "negative" else "neutral",
       analyze_polarity s) :=
  ⟨rfl, rfl⟩

/-- C1 counterexample: the journal entry consisting of six positive words and
five negative words has strictly positive polarity `1/11`, yet is stored with
mood label `neutral`, not `positive` — the polarity sign alone does not
determine the label. -/
theorem C1_counterexample_sign_disagrees :
    analyze_emotion "happy happy happy happy happy happy sad sad sad sad sad" =
      ("neutral", 1/11) ∧
    (0 : ℚ) < 1/11 ∧ ("neutral" : String) ≠ "positive" := by
  refine ⟨?_, by norm_num, by decide⟩
  have hp : (pyTokens "happy happy happy happy happy happy sad sad sad sad sad").countP
      (fun t => POSITIVE_WORDS.contains t) = 6 := by decide
  have hn : (pyTokens "happy happy happy happy happy happy sad sad sad sad sad").countP
      (fun t => NEGATIVE_WORDS.contains t) = 5 := by decide
  have hpol : analyze_polarity "happy happy happy happy happy happy sad sad sad sad sad"
      = 1/11 := by
    simp only [analyze_polarity]
    rw [hp, hn]
    norm_num
  unfold analyze_emotion
  rw [hpol]
  norm_num [moodOf]

/-- C1 (corrected): the stored mood label agrees with the stored polarity under
each writer's own rule. Journal records (`analyze_emotion`): label `positive`
iff polarity exceeds the `0.1` threshold, `negative` iff below `-0.1`,
`neutral` iff within the band. Chat-turn records (`app.py`): the stored
polarity is `1.0` exactly for label `positive`, `-1.0` exactly for
`negative`, and `0.0` exactly for `neutral`, so there the sign agrees
exactly. -/
theorem C1_mood_label_polarity_agreement :
    (∀ s : String,
      ((analyze_emotion s).1 = "positive" ↔ 1/10 < (analyze_emotion s).2) ∧
      ((analyze_emotion s).1 = "negative" ↔ (analyze_emotion s).2 < -(1/10)) ∧
      ((analyze_emotion s).1 = "neutral" ↔
        -(1/10) ≤ (analyze_emotion s).2 ∧ (analyze_emotion s).2 ≤ 1/10)) ∧
    (∀ (p : ℚ) (prompt : String),
      (0 < chat_polarity ((chat_turn_ctx p prompt).emotion) ↔
        (chat_turn_ctx p prompt).emotion = "positive") ∧
      (chat_polarity ((chat_turn_ctx p prompt).emotion) < 0 ↔
        (chat_turn_ctx p prompt).emotion = "negative") ∧
      (chat_polarity ((chat_turn_ctx p prompt).emotion) = 0 ↔
        (chat_turn_ctx p prompt).emotion = "neutral")) := by
  constructor
  · intro s
    exact ⟨moodOf_eq_positive_iff _, moodOf_eq_negative_iff _, moodOf_eq_neutral_iff _⟩
  · intro p prompt
    have cpos : chat_polarity "positive" = 1 := by
      unfold chat_polarity
      rw [if_pos rfl]
    have cneg : chat_polarity "negative" = -1 := by
      unfold chat_polarity
      rw [if_neg (by decide), if_pos rfl]
    have cneu : chat_polarity "neutral" = 0 := by
      unfold chat_polarity
      rw [if_neg (by decide), if_neg (by decide)]
    rcases chat_emotion_mem p prompt with h | h | h
    · rw [h, cpos]
      exact ⟨iff_of_true (by norm_num) rfl, iff_of_false (by norm_num) (by decide),
        iff_of_false (by norm_num) (by decide)⟩
    · rw [h, cneg]
      exact ⟨iff_of_false (by norm_num) (by decide), iff_of_true (by norm_num) rfl,
        iff_of_false (by norm_num) (by decide)⟩
    · rw [h, cneu]
      exact ⟨iff_of_false (by norm_num) (by decide), iff_of_false (by norm_num) (by decide),
        iff_of_true rfl rfl⟩

/-- C8 counterexample: the empty text has no word-boundary tokens at all, so
every one of its tokens is vacuously in the positive word set, yet
`analyze_emotion` returns `("neutral", 0.0)`, not `("positive", 1.0)`. -/
theorem C8_counterexample_empty_text :
    pyTokens "" = [] ∧ analyze_emotion "" = ("neutral", 0) ∧
    (("neutral", (0 : ℚ)) : String × ℚ) ≠ ("positive", 1) := by
  refine ⟨by decide, ?_, by simp⟩
  have hpol : analyze_polarity "" = 0 := by
    simp only [analyze_polarity]
    rw [show pyTokens "" = [] from by decide]
    simp
  unfold analyze_emotion
  rw [hpol]
  norm_num [moodOf]

/-- C8 (corrected, amended with nonemptiness): every text with at least one
word-boundary token, all of whose tokens belong to the positive word set,
gets polarity exactly `1.0` and mood `positive` from `analyze_emotion`. -/
theorem C8_all_positive_tokens (s : String) (h1 : pyTokens s ≠ [])
    (h2 : ∀ t ∈ pyTokens s, POSITIVE_WORDS.contains t = true) :
    analyze_emotion s = ("positive", 1) := by
  have hpos : (pyTokens s).countP (fun t => POSITIVE_WORDS.contains t) =
      (pyTokens s).length := List.countP_eq_length.mpr h2
  have hneg : (pyTokens s).countP (fun t => NEGATIVE_WORDS.contains t) = 0 :=
    List.countP_eq_zero.mpr fun a ha => by
      rw [pos_word_not_neg_word a (h2 a ha)]
      simp
  have hlen : (pyTokens s).length ≠ 0 := by
    simpa [List.length_eq_zero] using h1
  have hpol : analyze_polarity s = 1 := by
    simp only [analyze_polarity]
    rw [hpos, hneg, Nat.add_zero, if_neg hlen]
    push_cast
    rw [sub_zero]
    exact div_self (Nat.cast_ne_zero.mpr hlen)
  unfold analyze_emotion
  rw [hpol]
  norm_num [moodOf]

/-- Witness for C8: a concrete all-positive-token text. -/
theorem C8_all_positive_tokens_witness :
    pyTokens "happy grateful calm" ≠ [] ∧
    (∀ t ∈ pyTokens "happy grateful calm", POSITIVE_WORDS.contains t = true) ∧
    analyze_emotion "happy grateful calm" = ("positive", 1) :=
  ⟨by decide, by decide, C8_all_positive_tokens _ (by decide) (by decide)⟩

/-- C9 (confirmed): the chat classifier `get_emotion` uses the `±0.3`
thresholds (`positive` exactly above `0.3`, `negative` exactly below `-0.3`,
`neutral` exactly on the band), the journal scorer uses the distinct `±0.1`
thresholds, and the two are not unified: the bounded polarity estimate `1/5`
is `neutral` for the chat classifier but `positive` for the journal mood
rule. -/
theorem C9_two_threshold_pairs :
    (∀ p : ℚ, (get_emotion p = "positive" ↔ 3/10 < p) ∧
      (get_emotion p = "negative" ↔ p < -(3/10)) ∧
      (get_emotion p = "neutral" ↔ -(3/10) ≤ p ∧ p ≤ 3/10)) ∧
    POS_THRESHOLD = 3/10 ∧ NEG_THRESHOLD = -(3/10) ∧
    (∀ s : String,
      ((analyze_emotion s).1 = "positive" ↔ 1/10 < (analyze_emotion s).2) ∧
      ((analyze_emotion s).1 = "negative" ↔ (analyze_emotion s).2 < -(1/10))) ∧
    get_emotion (1/5) = "neutral" ∧ moodOf (1/5) = "positive" := by
  refine ⟨fun p => ⟨get_emotion_eq_positive_iff p, get_emotion_eq_negative_iff p,
      get_emotion_eq_neutral_iff p⟩, rfl, rfl,
    fun s => ⟨moodOf_eq_positive_iff _, moodOf_eq_negative_iff _⟩, ?_, ?_⟩
  · rw [get_emotion_eq_neutral_iff]
    norm_num
  · rw [moodOf_eq_positive_iff]
    norm_num

/-- C10 (confirmed): `analyze_emotion` is invariant under letter case of its
input, because the code lowercases the text before tokenizing and lowercasing
is idempotent. -/
theorem C10_case_insensitive (s : String) :
    analyze_emotion s = analyze_emotion (pyLower s) := by
  have h : pyTokens (pyLower s) = pyTokens s := by
    unfold pyTokens
    rw [pyLower_idem]
  have h2 : analyze_polarity (pyLower s) = analyze_polarity s := by
    simp only [analyze_polarity, h]
  unfold analyze_emotion
  rw [h2]

/-- C3 (confirmed): in `detect_intent_and_emotion`, a negated-positive pattern
match forces emotion `negative` regardless of the base polarity estimate; a
negated-negative match without a negated-positive match forces `neutral`; in
particular `"I am not happy today"` yields `negative` and
`"I am not sad anymore"` yields `neutral`, for every base polarity. -/
theorem C3_negation_overrides :
    (∀ (p : ℚ) (input : String),
        hasNegated positive_terms (pyStrip (pyLower input)) = true →
        (detect_intent_and_emotion p input).emotion = "negative") ∧
    (∀ (p : ℚ) (input : String),
        hasNegated positive_terms (pyStrip (pyLower input)) = false →
        hasNegated negative_terms (pyStrip (pyLower input)) = true →
        (detect_intent_and_emotion p input).emotion = "neutral") ∧
    (∀ p : ℚ, (detect_intent_and_emotion p "I am not happy today").emotion = "negative") ∧
    (∀ p : ℚ, (detect_intent_and_emotion p "I am not sad anymore").emotion = "neutral") := by
  refine ⟨?_, ?_, ?_, ?_⟩
  · intro p input h
    rw [detect_emotion_eq, if_pos h]
  · intro p input h1 h2
    rw [detect_emotion_eq, if_neg (by simp [h1]), if_pos h2]
  · intro p
    rw [detect_emotion_eq, if_pos (by decide)]
  · intro p
    rw [detect_emotion_eq, if_neg (by decide), if_pos (by decide)]

/-- Witness for C3: a concrete negated-positive input. -/
theorem C3_negation_overrides_witness :
    hasNegated positive_terms (pyStrip (pyLower "I do not feel good")) = true ∧
    (detect_intent_and_emotion 0 "I do not feel good").emotion = "negative" :=
  ⟨by decide, C3_negation_overrides.1 0 "I do not feel good" (by decide)⟩

/-- C4 (confirmed): the intent of `detect_intent_and_emotion` is computed by
the ordered `elif` chain `detectIntent` over the processed text, that chain
equals first-match-wins evaluation of the ordered rule list (achievement,
gratitude, apology, anger, tiredness, overwhelm, confusion, loneliness,
anxiety, journal, breathing, capability, greet, else `none`), and any text
containing an achievement phrase — in particular one also containing a
gratitude phrase — classifies as `achievement`. -/
theorem C4_intent_ordered_first_match :
    (∀ (p : ℚ) (input : String),
        (detect_intent_and_emotion p input).intent =
          detectIntent (pyStrip (pyLower input))) ∧
    (∀ text : String, detectIntent text = firstMatch text intentRules) ∧
    (∀ text : String, containsAny text achievementPhrases = true →
        containsAny text gratitudePhrases = true →
        detectIntent text = "achievement") := by
  refine ⟨fun p input => rfl, fun text => ?_, fun text h1 h2 => ?_⟩
  · simp only [intentRules, firstMatch]
    rfl
  · unfold detectIntent
    rw [if_pos h1]

/-- Witness for C4: a text containing both an achievement and a gratitude
phrase classifies as `achievement`. -/
theorem C4_intent_ordered_first_match_witness :
    containsAny "i made dinner, thanks" achievementPhrases = true ∧
    containsAny "i made dinner, thanks" gratitudePhrases = true ∧
    detectIntent "i made dinner, thanks" = "achievement" :=
  ⟨by decide, by decide,
    C4_intent_ordered_first_match.2.2 "i made dinner, thanks" (by decide) (by decide)⟩

/-- C5 (confirmed): the mood aggregator maps the ordered `(timestamp, label)`
rows to a numeric series in the same order with `positive` ↦ `1`,
`negative` ↦ `-1` and the remaining label `neutral` ↦ `0`; on the concrete
three-row input it yields `[1, -1, 0]`, and on the empty input it returns
`none` (the explicit no-data result, no chart artifact). -/
theorem C5_mood_aggregation :
    plot_mood_trend [] = none ∧
    plot_mood_trend [("t1", "positive"), ("t2", "negative"), ("t3", "neutral")] =
      some (["t1", "t2", "t3"], [1, -1, 0]) ∧
    (∀ rows : List (String × String), rows ≠ [] →
      (∀ r ∈ rows, r.2 = "positive" ∨ r.2 = "negative" ∨ r.2 = "neutral") →
      plot_mood_trend rows = some (rows.map Prod.fst,
        rows.map fun r => if r.2 = "positive" then 1
          else if r.2 = "negative" then -1 else 0)) := by
  refine ⟨rfl, by decide, ?_⟩
  intro rows h1 h2
  unfold plot_mood_trend
  rw [if_neg (by simpa [List.isEmpty_iff] using h1)]
  have hmap : rows.map (fun r => moodValue r.snd) =
      rows.map fun r => if r.2 = "positive" then 1
        else if r.2 = "negative" then -1 else 0 :=
    List.map_congr_left fun r hr => by
      rcases h2 r hr with h | h | h <;> rw [h] <;> decide
  rw [hmap]

/-- Witness for C5: the general mapping applied at a concrete two-row input. -/
theorem C5_mood_aggregation_witness :
    plot_mood_trend [("d1", "positive"), ("d2", "neutral")] =
      some (["d1", "d2"], [1, 0]) := by
  rw [C5_mood_aggregation.2.2 [("d1", "positive"), ("d2", "neutral")]
    (by decide) (by decide)]
  decide

/-- C6 (confirmed): whenever the generative service is unconfigured, raises, or
returns a payload without usable content, `get_llm_response` yields `none`, and
`generate_reply` silently falls back to the rule-based `get_response`, which is
a non-empty canned string; no failure reaches the caller. -/
theorem C6_llm_failure_fallback (available : Bool) (outcome : LLMOutcome) (p : ℚ)
    (input : String)
    (h : available = false ∨ outcome = LLMOutcome.failure ∨
      outcome = LLMOutcome.success none) :
    generate_reply available outcome p input = get_response p input ∧
    get_response p input ≠ "" := by
  have hnone : get_llm_response available outcome = none := by
    rcases h with h | h | h
    · unfold get_llm_response
      rw [if_pos h]
    · subst h
      unfold get_llm_response
      split_ifs <;> rfl
    · subst h
      unfold get_llm_response
      split_ifs <;> rfl
  constructor
  · unfold generate_reply
    rw [hnone]
  · exact get_response_ne_empty p input

/-- Witness for C6: the fallback at a concrete failed call. -/
theorem C6_llm_failure_fallback_witness :
    generate_reply false LLMOutcome.failure 0 "hello" = get_response 0 "hello" ∧
    get_response 0 "hello" ≠ "" :=
  C6_llm_failure_fallback false LLMOutcome.failure 0 "hello" (Or.inl rfl)

/-- C7 (confirmed): the classifier always returns a value — its emotion is one
of the three labels and its intent one of the fourteen intent tags — the empty
string (whose TextBlob polarity is `0`) yields emotion `neutral` and intent
`none`, and `get_response` on empty or whitespace-only input returns the
default prompt rather than failing. -/
theorem C7_classifier_totality :
    (∀ (p : ℚ) (input : String),
      ((detect_intent_and_emotion p input).emotion = "positive" ∨
       (detect_intent_and_emotion p input).emotion = "negative" ∨
       (detect_intent_and_emotion p input).emotion = "neutral") ∧
      (detect_intent_and_emotion p input).intent ∈
        ["achievement", "gratitude", "apology", "anger", "tiredness", "overwhelm",
         "confusion", "loneliness", "anxiety", "journal", "breathing", "capability",
         "greet", "none"]) ∧
    (∀ p : ℚ, p = 0 → detect_intent_and_emotion p "" =
      { emotion := "neutral", intent := "none" }) ∧
    (∀ (p : ℚ) (input : String), pyStrip input = "" →
      get_response p input = "I'm here to listen. How are you feeling today?") := by
  refine ⟨?_, ?_, ?_⟩
  · intro p input
    refine ⟨detect_emotion_mem p input, ?_⟩
    rw [detect_intent_eq]
    exact detect_intent_mem _
  · intro p hp
    subst hp
    have he : (detect_intent_and_emotion 0 "").emotion = "neutral" := by
      rw [detect_emotion_eq, if_neg (by decide), if_neg (by decide)]
      exact (get_emotion_eq_neutral_iff 0).mpr ⟨by norm_num, by norm_num⟩
    have hi : (detect_intent_and_emotion 0 "").intent = "none" := by decide
    calc detect_intent_and_emotion 0 ""
        = ⟨(detect_intent_and_emotion 0 "").emotion,
           (detect_intent_and_emotion 0 "").intent⟩ := rfl
      _ = ⟨"neutral", "none"⟩ := by rw [he, hi]
  · intro p input h
    unfold get_response
    rw [if_pos h]

/-- Witness for C7: the concrete empty and whitespace-only inputs. -/
theorem C7_classifier_totality_witness :
    detect_intent_and_emotion 0 "" = { emotion := "neutral", intent := "none" } ∧
    get_response 0 "   " = "I'm here to listen. How are you feeling today?" :=
  ⟨C7_classifier_totality.2.1 0 rfl, C7_classifier_totality.2.2 0 "   " (by decide)⟩
